import Mathlib

/-!
Verification of the IOSuite instrument-driver layer (`IOSuite/instr.py`).

The Python code wraps a VISA transport: every method formats SCPI command
strings from typed parameters and either writes them to the device or
queries it, printing replies.  We embed each method as a pure function
from its arguments (plus the device reply, for queries) to the sequence of
commands written, the sequence of queries issued, the lines printed, and
the Python return value.
-/

/--
Embedding of the Python values that flow through the driver methods:
`None`, `int`, `float` and `str`.  A Python float is modelled by its exact
rational value together with the string `str()` produces for it (Python's
decimal rendering of the float, e.g. `5.0` ↦ `"5.0"`, `1e-3` ↦ `"0.001"`);
the rendering is data because we do not model IEEE-754 formatting itself.
-/
inductive PyVal where
  | none
  | int (n : Int)
  | float (val : ℚ) (str : String)
  | str (s : String)
deriving DecidableEq

/-- Python `str()` as used by `"...{0}...".format(x)`. -/
def PyVal.toStr : PyVal → String
  | .none => "None"
  | .int n => toString n
  | .float _ s => s
  | .str s => s

/-- Python `x == m` where `m` is an integer literal: numeric equality for
`int` and `float`, `False` for `str` and `None` (no error is raised). -/
def PyVal.eqInt : PyVal → Int → Bool
  | .int n, m => n == m
  | .float v _, m => v == (m : ℚ)
  | .str _, _ => false
  | .none, _ => false

/-- Python `isinstance(x, (int, float))`: whether the value is numeric. -/
def PyVal.isNumeric : PyVal → Bool
  | .int _ => true
  | .float _ _ => true
  | _ => false

/-- `Waveshapes` enum (`instr.py`). -/
inductive Waveshapes where
  | sine
  | square
  | ramp
  | pulse
  | noise
  | dc
  | user
deriving DecidableEq

/-- Wire token of each `Waveshapes` member (`instr.py` lines 20-26). -/
def Waveshapes.value : Waveshapes → String
  | .sine => "SIN"
  | .square => "SQU"
  | .ramp => "RAMP"
  | .pulse => "PULS"
  | .noise => "NOISe"
  | .dc => "DC"
  | .user => "USER"

/-- `ValueToMeas` enum (`instr.py`). -/
inductive ValueToMeas where
  | voltage
  | current
  | resistance
  | fresistance
  | frequency
  | period
  | continuity
  | diode
deriving DecidableEq

/-- Wire token of each `ValueToMeas` member (`instr.py` lines 31-38). -/
def ValueToMeas.value : ValueToMeas → String
  | .voltage => "VOLT"
  | .current => "CURR"
  | .resistance => "RES"
  | .fresistance => "FRES"
  | .frequency => "FREQ"
  | .period => "PER"
  | .continuity => "CONT"
  | .diode => "DIOD"

/-- `CurrentType` enum (`instr.py`). -/
inductive CurrentType where
  | alternating
  | direct
deriving DecidableEq

/-- Wire token of each `CurrentType` member (`instr.py` lines 43-44). -/
def CurrentType.value : CurrentType → String
  | .alternating => "AC"
  | .direct => "DC"

/-- `RangeOptions` enum (`instr.py` lines 6-9). -/
inductive RangeOptions where
  | minRange
  | maxRange
  | defRange
deriving DecidableEq

/-- Wire token of each `RangeOptions` member. -/
def RangeOptions.value : RangeOptions → String
  | .minRange => "MIN"
  | .maxRange => "MAX"
  | .defRange => "DEF"

/--
Observable effect of one driver-method call: the SCPI commands written to
the device (`resource.write`, in order), the queries issued
(`resource.query`, in order), the text lines the method itself prints
(device replies and notices; the incidental `print` of `write`'s
transport byte count is not an output of the driver and is not recorded),
and the method's Python return value.
-/
structure MethodEffect where
  writes : List String
  queries : List String
  printed : List String
  ret : PyVal
deriving DecidableEq

/-- Identity fields set by an `Instrument` subclass constructor. -/
structure InstrumentState where
  maker : String
  modelName : String
  modelNumber : String
  characteristic : String
  description : String
deriving DecidableEq

namespace Instrument

/-- `Instrument.__str__` (`instr.py` lines 70-71): returns `description`. -/
def toStr (s : InstrumentState) : String :=
  s.description

/-- `Instrument.writeText` (`instr.py` lines 88-91): the command written is
`DISP:TEXT "{text}"` with the text interpolated verbatim. -/
def writeText (text : String) : MethodEffect :=
  { writes := ["DISP:TEXT \"" ++ text ++ "\""]
    queries := []
    printed := []
    ret := .none }

/-- `Instrument.getErrorQueue` (`instr.py` lines 93-97): prints a header,
then issues one `SYST:ERR?` query and prints the raw reply. -/
def getErrorQueue (s : InstrumentState) (reply : String) : MethodEffect :=
  { writes := []
    queries := ["SYST:ERR?"]
    printed := ["Error queue from " ++ s.maker ++ " " ++ s.modelName, reply]
    ret := .none }

end Instrument

namespace FrequencyGenerator_33220A

/-- `FrequencyGenerator_33220A.__init__` (`instr.py` lines 109-117). -/
def init : InstrumentState :=
  { maker := "Agilent"
    modelName := "20MHz Function/Arbitrary Waveform Generator"
    modelNumber := "33220A"
    characteristic := "N/A"
    description := "Agilent" ++ " " ++
      "20MHz Function/Arbitrary Waveform Generator" ++ " - " ++ "33220A" }

/--
`FrequencyGenerator_33220A.setWaveform` (`instr.py` lines 125-190).
Always writes `FUNC {form}` and `OUTP:LOAD {load}`; then the
pulse-specific commands for `pulse`, the frequency/amplitude/offset
commands for `sine`, and for every other shape writes nothing further and
prints a not-implemented notice.
-/
def setWaveform (form : Waveshapes) (load lowVol highVol period width trans
    freq ampl offset : PyVal) : MethodEffect :=
  let base := ["FUNC " ++ form.value, "OUTP:LOAD " ++ load.toStr]
  if form = Waveshapes.pulse then
    { writes := base ++
        ["VOLT:LOW " ++ lowVol.toStr,
         "VOLT:HIGH " ++ highVol.toStr,
         "PULS:PER " ++ period.toStr,
         "PULS:WIDT " ++ width.toStr,
         "PULS:TRAN " ++ trans.toStr]
      queries := []
      printed := []
      ret := .none }
  else if form = Waveshapes.sine then
    { writes := base ++
        ["FREQ " ++ freq.toStr,
         "VOLT " ++ ampl.toStr,
         "VOLT:OFFS " ++ offset.toStr]
      queries := []
      printed := []
      ret := .none }
  else
    { writes := base
      queries := []
      printed := ["No implementation for " ++ form.value ++ " waveform."]
      ret := .none }

/-- `setWaveform` called with every optional argument at its Python
default (`load=50, lowVol=0, highVol=0.75, period=1e-3, width=100e-6,
trans=10e-9, freq=2500, ampl=1.2, offset=0.4`). -/
def setWaveformDefaults (form : Waveshapes) : MethodEffect :=
  setWaveform form (.int 50) (.int 0) (.float (3/4) "0.75")
    (.float (1/1000) "0.001") (.float (1/10000) "0.0001")
    (.float (1/100000000) "1e-08") (.int 2500) (.float (6/5) "1.2")
    (.float (2/5) "0.4")

end FrequencyGenerator_33220A

namespace MultiMeter_34401A

/-- `MultiMeter_34401A.__init__` (`instr.py` lines 204-212). -/
def init : InstrumentState :=
  { maker := "Agilent"
    modelName := "6 1/2 Digit Multimeter"
    modelNumber := "34401A"
    characteristic := "N/A"
    description := "Agilent" ++ " " ++ "6 1/2 Digit Multimeter" ++ " - " ++
      "34401A" }

/--
`MultiMeter_34401A.setMeasurements` (`instr.py` lines 214-241).
Three successive (non-`elif`) `if` statements rebind `valueRange` to a
token string when it equals a sentinel (`-1` ↦ `MAX`, `-2` ↦ `MIN`,
`-3` ↦ `DEF`; a string never equals an int in Python, so a substituted
token is never re-tested), then one `CONF` command is written.
-/
def setMeasurements (mode : ValueToMeas) (currType : CurrentType)
    (valueRange resolution : PyVal) : MethodEffect :=
  let v1 := if valueRange.eqInt (-1) then PyVal.str RangeOptions.maxRange.value
            else valueRange
  let v2 := if v1.eqInt (-2) then PyVal.str RangeOptions.minRange.value
            else v1
  let v3 := if v2.eqInt (-3) then PyVal.str RangeOptions.defRange.value
            else v2
  { writes := ["CONF:" ++ mode.value ++ ":" ++ currType.value ++ " " ++
      v3.toStr ++ ", " ++ resolution.toStr]
    queries := []
    printed := []
    ret := .none }

/-- `MultiMeter_34401A.getMeas` (`instr.py` lines 243-247): issues one
`MEAS:{mode}:{currType}?` query, prints the raw reply, returns `None`. -/
def getMeas (mode : ValueToMeas) (currType : CurrentType)
    (reply : String) : MethodEffect :=
  { writes := []
    queries := ["MEAS:" ++ mode.value ++ ":" ++ currType.value ++ "?"]
    printed := [reply]
    ret := .none }

/-- `MultiMeter_34401A.read` (`instr.py` lines 249-252): issues the bare
`READ?` query and returns the reply string unchanged. -/
def read (reply : String) : MethodEffect :=
  { writes := []
    queries := ["READ?"]
    printed := []
    ret := .str reply }

end MultiMeter_34401A

namespace PowerSupply_E3644A

/-- `PowerSupply_E3644A.__init__` (`instr.py` lines 269-278): the
description also appends the characteristic on a second line. -/
def init : InstrumentState :=
  { maker := "Agilent"
    modelName := "DC Power Supply"
    modelNumber := "E3644A"
    characteristic := "0-8V, 8A / 0-20V, 4A"
    description := "Agilent" ++ " " ++ "DC Power Supply" ++ " - " ++
      "E3644A" ++ "\n" ++ "0-8V, 8A / 0-20V, 4A" }

end PowerSupply_E3644A

/-- A command of the sine branch of `setWaveform`: a frequency (`FREQ`),
amplitude (`VOLT`) or offset (`VOLT:OFFS`) command. -/
def isFreqAmplOffsetCmd (c : String) : Prop :=
  (∃ x, c = "FREQ " ++ x) ∨ (∃ x, c = "VOLT " ++ x) ∨
  (∃ x, c = "VOLT:OFFS " ++ x)

/-- A command of the pulse branch of `setWaveform`: a low-level, high-level,
period, width or transition command. -/
def isPulseSpecificCmd (c : String) : Prop :=
  (∃ x, c = "VOLT:LOW " ++ x) ∨ (∃ x, c = "VOLT:HIGH " ++ x) ∨
  (∃ x, c = "PULS:PER " ++ x) ∨ (∃ x, c = "PULS:WIDT " ++ x) ∨
  (∃ x, c = "PULS:TRAN " ++ x)

/-- The translation of the range argument described by the specification:
the sentinel-maximum value maps to `MAX`, sentinel-minimum to `MIN`,
sentinel-default to `DEF`, and any other value is rendered verbatim.  This
is the spec-side definition that `setMeasurements` is compared against. -/
def specRangeToken (r : PyVal) : String :=
  if r.eqInt (-1) then "MAX"
  else if r.eqInt (-2) then "MIN"
  else if r.eqInt (-3) then "DEF"
  else r.toStr

/-- Two strings built from incomparable prefixes (neither prefix extends
the other) are distinct, whatever the suffixes. -/
theorem append_ne_append_of_incomp (p x q y : String)
    (h1 : ¬ p.data <+: q.data) (h2 : ¬ q.data <+: p.data) :
    p ++ x ≠ q ++ y := by
  intro h
  have hd := congrArg String.data h
  rw [String.data_append, String.data_append] at hd
  have hp : p.data <+: q.data ++ y.data := ⟨x.data, hd⟩
  rcases List.prefix_or_prefix_of_prefix hp (List.prefix_append q.data y.data)
    with h' | h'
  · exact h1 h'
  · exact h2 h'

/-- A string of which `q` is not a prefix differs from every extension of
`q`. -/
theorem lit_ne_append (a q y : String) (h2 : ¬ q.data <+: a.data) :
    a ≠ q ++ y := by
  intro h
  have hd := congrArg String.data h
  rw [String.data_append] at hd
  exact h2 ⟨y.data, hd.symm⟩

/-- C3: `setWaveform` with shape=sine, load=50, frequency=5.0,
amplitude=10.0, offset=0 writes exactly `FUNC SIN`, `OUTP:LOAD 50`,
`FREQ 5.0`, `VOLT 10.0`, `VOLT:OFFS 0`, in that order, and nothing else. -/
theorem setWaveform_sine_example :
    (FrequencyGenerator_33220A.setWaveform Waveshapes.sine (.int 50)
      (.int 0) (.float (3/4) "0.75") (.float (1/1000) "0.001")
      (.float (1/10000) "0.0001") (.float (1/100000000) "1e-08")
      (.float 5 "5.0") (.float 10 "10.0") (.int 0)).writes =
    ["FUNC SIN", "OUTP:LOAD 50", "FREQ 5.0", "VOLT 10.0", "VOLT:OFFS 0"] := by
  decide

/-- C1 counterexample: with shape=square (and every optional argument at
its default), `setWaveform` does send device commands — `FUNC SQU` and
`OUTP:LOAD 50` — so the claim that no command at all is sent is false. -/
theorem setWaveform_square_writes_cex :
    (FrequencyGenerator_33220A.setWaveformDefaults Waveshapes.square).writes =
      ["FUNC SQU", "OUTP:LOAD 50"] ∧
    (FrequencyGenerator_33220A.setWaveformDefaults Waveshapes.square).writes ≠
      [] := by
  constructor
  · rfl
  · decide

/-- C1 amended: for every waveshape other than pulse and sine,
`setWaveform` writes exactly the `FUNC` and `OUTP:LOAD` commands (no
shape-specific command), issues no query, and prints the
`No implementation for {shape} waveform.` notice. -/
theorem setWaveform_unimplemented_shape (form : Waveshapes)
    (h1 : form ≠ Waveshapes.pulse) (h2 : form ≠ Waveshapes.sine)
    (load lowVol highVol period width trans freq ampl offset : PyVal) :
    FrequencyGenerator_33220A.setWaveform form load lowVol highVol period
      width trans freq ampl offset =
    { writes := ["FUNC " ++ form.value, "OUTP:LOAD " ++ load.toStr]
      queries := []
      printed := ["No implementation for " ++ form.value ++ " waveform."]
      ret := .none } := by
  simp [FrequencyGenerator_33220A.setWaveform, h1, h2]

/-- C1 witness: the amended theorem instantiated at shape=square with the
default argument values. -/
theorem setWaveform_unimplemented_shape_witness :
    FrequencyGenerator_33220A.setWaveform Waveshapes.square (.int 50)
      (.int 0) (.float (3/4) "0.75") (.float (1/1000) "0.001")
      (.float (1/10000) "0.0001") (.float (1/100000000) "1e-08")
      (.int 2500) (.float (6/5) "1.2") (.float (2/5) "0.4") =
    { writes := ["FUNC SQU", "OUTP:LOAD 50"]
      queries := []
      printed := ["No implementation for SQU waveform."]
      ret := .none } :=
  setWaveform_unimplemented_shape Waveshapes.square (by decide) (by decide)
    (.int 50) (.int 0) (.float (3/4) "0.75") (.float (1/1000) "0.001")
    (.float (1/10000) "0.0001") (.float (1/100000000) "1e-08")
    (.int 2500) (.float (6/5) "1.2") (.float (2/5) "0.4")

/-- C2 counterexample: `getMeas` returns `None` to its caller — not a
parsed numeric reading — here at quantity=voltage, currentType=direct,
device reply `+4.25000000E+00`. -/
theorem getMeas_ret_cex :
    (MultiMeter_34401A.getMeas ValueToMeas.voltage CurrentType.direct
      "+4.25000000E+00").ret = PyVal.none ∧
    (MultiMeter_34401A.getMeas ValueToMeas.voltage CurrentType.direct
      "+4.25000000E+00").ret.isNumeric = false := by
  exact ⟨rfl, rfl⟩

/-- C2 amended: for every quantity, current type and device reply,
`getMeas` issues exactly the one query `MEAS:{quantity}:{currentType}?`,
prints the raw text reply, and returns `None` (no parsed value reaches
the caller). -/
theorem getMeas_spec (mode : ValueToMeas) (currType : CurrentType)
    (reply : String) :
    MultiMeter_34401A.getMeas mode currType reply =
    { writes := []
      queries := ["MEAS:" ++ mode.value ++ ":" ++ currType.value ++ "?"]
      printed := [reply]
      ret := .none } :=
  rfl

/-- C5: with shape=pulse, `setWaveform` writes exactly `FUNC PULS`,
`OUTP:LOAD`, then the five pulse-specific commands (low level, high
level, period, width, transition) and no frequency, amplitude or offset
command; with shape=sine it writes exactly `FUNC SIN`, `OUTP:LOAD`, then
the frequency, amplitude and offset commands and no pulse-specific
command. -/
theorem setWaveform_pulse_sine_split
    (load lowVol highVol period width trans freq ampl offset : PyVal) :
    ((FrequencyGenerator_33220A.setWaveform Waveshapes.pulse load lowVol
        highVol period width trans freq ampl offset).writes =
      ["FUNC PULS", "OUTP:LOAD " ++ load.toStr,
       "VOLT:LOW " ++ lowVol.toStr, "VOLT:HIGH " ++ highVol.toStr,
       "PULS:PER " ++ period.toStr, "PULS:WIDT " ++ width.toStr,
       "PULS:TRAN " ++ trans.toStr] ∧
     ∀ c ∈ (FrequencyGenerator_33220A.setWaveform Waveshapes.pulse load
        lowVol highVol period width trans freq ampl offset).writes,
       ¬ isFreqAmplOffsetCmd c) ∧
    ((FrequencyGenerator_33220A.setWaveform Waveshapes.sine load lowVol
        highVol period width trans freq ampl offset).writes =
      ["FUNC SIN", "OUTP:LOAD " ++ load.toStr, "FREQ " ++ freq.toStr,
       "VOLT " ++ ampl.toStr, "VOLT:OFFS " ++ offset.toStr] ∧
     ∀ c ∈ (FrequencyGenerator_33220A.setWaveform Waveshapes.sine load
        lowVol highVol period width trans freq ampl offset).writes,
       ¬ isPulseSpecificCmd c) := by
  refine ⟨⟨rfl, ?_⟩, rfl, ?_⟩
  · intro c hc
    simp [FrequencyGenerator_33220A.setWaveform] at hc
    rcases hc with rfl | rfl | rfl | rfl | rfl | rfl | rfl <;>
      rintro (⟨x, hx⟩ | ⟨x, hx⟩ | ⟨x, hx⟩) <;>
      first
        | exact lit_ne_append _ _ _ (by decide) hx
        | exact append_ne_append_of_incomp _ _ _ _ (by decide) (by decide) hx
  · intro c hc
    simp [FrequencyGenerator_33220A.setWaveform] at hc
    rcases hc with rfl | rfl | rfl | rfl | rfl <;>
      rintro (⟨x, hx⟩ | ⟨x, hx⟩ | ⟨x, hx⟩ | ⟨x, hx⟩ | ⟨x, hx⟩) <;>
      first
        | exact lit_ne_append _ _ _ (by decide) hx
        | exact append_ne_append_of_incomp _ _ _ _ (by decide) (by decide) hx

/-- C6 counterexample: the power supply's readback is not the plain
`constructor model-name - model-number` string: its description also
carries the characteristic on a second line. -/
theorem powerSupply_description_cex :
    Instrument.toStr PowerSupply_E3644A.init =
      "Agilent DC Power Supply - E3644A\n0-8V, 8A / 0-20V, 4A" ∧
    Instrument.toStr PowerSupply_E3644A.init ≠
      "Agilent DC Power Supply - E3644A" := by
  constructor
  · rfl
  · decide

/-- C6 amended: for the frequency generator and the multimeter, reading
back the description yields exactly `constructor model-name -
model-number`; for the power supply it yields that string followed by a
newline and the characteristic string. -/
theorem description_roundtrip :
    Instrument.toStr FrequencyGenerator_33220A.init =
      "Agilent 20MHz Function/Arbitrary Waveform Generator - 33220A" ∧
    Instrument.toStr MultiMeter_34401A.init =
      "Agilent 6 1/2 Digit Multimeter - 34401A" ∧
    Instrument.toStr PowerSupply_E3644A.init =
      "Agilent DC Power Supply - E3644A" ++ "\n" ++
        "0-8V, 8A / 0-20V, 4A" := by
  exact ⟨rfl, rfl, rfl⟩

/-- C7: for every text, `writeText` writes exactly
`DISP:TEXT "{text}"` with the text interpolated verbatim between the
double quotes; in particular an embedded double quote is not escaped, as
the concrete instance shows. -/
theorem writeText_verbatim (text : String) :
    Instrument.writeText text =
      { writes := ["DISP:TEXT \"" ++ text ++ "\""]
        queries := []
        printed := []
        ret := .none } ∧
    (Instrument.writeText "SAY \"HI\"").writes =
      ["DISP:TEXT \"SAY \"HI\"\""] := by
  exact ⟨rfl, rfl⟩

/-- C8: for every instrument identity and device reply, `getErrorQueue`
issues exactly one query, the fixed `SYST:ERR?`, and prints the header
line and the raw reply without parsing it. -/
theorem getErrorQueue_single_query (s : InstrumentState) (reply : String) :
    Instrument.getErrorQueue s reply =
      { writes := []
        queries := ["SYST:ERR?"]
        printed := ["Error queue from " ++ s.maker ++ " " ++ s.modelName,
          reply]
        ret := .none } ∧
    (Instrument.getErrorQueue s reply).queries.length = 1 := by
  exact ⟨rfl, rfl⟩

/-- C9: for every device reply, `read` issues exactly the bare `READ?`
query and returns the reply string unchanged (still text, not parsed). -/
theorem read_returns_reply (reply : String) :
    MultiMeter_34401A.read reply =
      { writes := []
        queries := ["READ?"]
        printed := []
        ret := .str reply } := by
  rfl

/-- C4: for every quantity, current type, resolution and numeric range
argument, `setMeasurements` writes the `CONF` command with the range slot
holding `MAX` for the sentinel `-1`, `MIN` for `-2`, `DEF` for `-3`, and
the verbatim rendering of any non-sentinel numeric range, as
`specRangeToken` states. -/
theorem setMeasurements_range_tokens (mode : ValueToMeas)
    (currType : CurrentType) (r res : PyVal) (h : r.isNumeric = true) :
    (MultiMeter_34401A.setMeasurements mode currType r res).writes =
      ["CONF:" ++ mode.value ++ ":" ++ currType.value ++ " " ++
        specRangeToken r ++ ", " ++ res.toStr] := by
  rcases r with _ | n | ⟨v, s⟩ | s
  · simp [PyVal.isNumeric] at h
  · simp only [MultiMeter_34401A.setMeasurements, specRangeToken,
      PyVal.eqInt]
    by_cases h1 : n = -1
    · simp [h1, PyVal.eqInt, RangeOptions.value, PyVal.toStr]
    · by_cases h2 : n = -2
      · simp [h1, h2, PyVal.eqInt, RangeOptions.value, PyVal.toStr]
      · by_cases h3 : n = -3
        · simp [h1, h2, h3, PyVal.eqInt, RangeOptions.value, PyVal.toStr]
        · simp [h1, h2, h3, PyVal.eqInt, PyVal.toStr]
  · simp only [MultiMeter_34401A.setMeasurements, specRangeToken,
      PyVal.eqInt]
    by_cases h1 : v = -1
    · simp [h1, PyVal.eqInt, RangeOptions.value, PyVal.toStr]
    · by_cases h2 : v = -2
      · simp [h1, h2, PyVal.eqInt, RangeOptions.value, PyVal.toStr]
      · by_cases h3 : v = -3
        · simp [h1, h2, h3, PyVal.eqInt, RangeOptions.value, PyVal.toStr]
        · simp [h1, h2, h3, PyVal.eqInt, PyVal.toStr]
  · simp [PyVal.isNumeric] at h

/-- C4 witness: the theorem instantiated at quantity=voltage,
currentType=direct, range = the sentinel `-2`, resolution `1e-3`: the
command written is `CONF:VOLT:DC MIN, 0.001`. -/
theorem setMeasurements_range_tokens_witness :
    PyVal.isNumeric (.int (-2)) = true ∧
    (MultiMeter_34401A.setMeasurements ValueToMeas.voltage
      CurrentType.direct (.int (-2)) (.float (1/1000) "0.001")).writes =
      ["CONF:" ++ ValueToMeas.voltage.value ++ ":" ++
        CurrentType.direct.value ++ " " ++ specRangeToken (.int (-2)) ++
        ", " ++ PyVal.toStr (.float (1/1000) "0.001")] :=
  ⟨by decide, setMeasurements_range_tokens ValueToMeas.voltage
    CurrentType.direct (.int (-2)) (.float (1/1000) "0.001") (by decide)⟩

/-- C10: the sentinel substitution applies only to the range argument and
does not cascade: for every quantity, current type and resolution value,
range = `-1` yields the token `MAX` (never re-tested into `MIN` or
`DEF`), while the resolution is rendered verbatim even when it equals a
sentinel code — in particular range=-1, resolution=-1 writes
`CONF:CURR:DC MAX, -1`. -/
theorem setMeasurements_no_cascade :
    (∀ (mode : ValueToMeas) (currType : CurrentType) (res : PyVal),
      (MultiMeter_34401A.setMeasurements mode currType (.int (-1))
        res).writes =
      ["CONF:" ++ mode.value ++ ":" ++ currType.value ++ " " ++ "MAX" ++
        ", " ++ res.toStr]) ∧
    (MultiMeter_34401A.setMeasurements ValueToMeas.current
      CurrentType.direct (.int (-1)) (.int (-1))).writes =
      ["CONF:CURR:DC MAX, -1"] := by
  constructor
  · intro mode currType res
    simp [MultiMeter_34401A.setMeasurements, PyVal.eqInt,
      RangeOptions.value, PyVal.toStr]
  · rfl
